import Mathlib

/-! ## Verification of `DBStructure.py`

A shallow embedding of the schema module `DBStructure.py` of the
`DECO3801-2021-Sem-2` repository: the four enum classes and their
string-conversion helpers, the base64 password encode/decode pair, the row
types of the eighteen SQLAlchemy tables together with the ORM-level cascade
delete behaviour declared through `relationship`/`backref` configuration,
composite-primary-key insertion, and the evaluation-time semantics of the
`default=datetime.datetime.now(...)` column defaults.

Python strings are modelled as Lean `String`s (the enum names and website
labels are plain ASCII); byte strings (`str.encode()` results) are modelled
as lists of naturals below 256; `datetime` values are modelled as abstract
clock readings of type `Nat`.
-/

namespace DBStructure

/-! ## Python string primitives used by the conversion helpers -/

/-- `str.lower()` on the ASCII strings that occur here: lowercase every
character. -/
def pyLower (s : String) : String :=
  String.mk (s.toList.map Char.toLower)

/-- `str.upper()` on the ASCII strings that occur here: uppercase every
character. -/
def pyUpper (s : String) : String :=
  String.mk (s.toList.map Char.toUpper)

/-- Core of `str.replace(old, new, 1)` for one-character patterns: replace
only the first occurrence of `old`. -/
def replaceFirstAux (old new : Char) : List Char → List Char
  | [] => []
  | x :: xs => if x = old then new :: xs else x :: replaceFirstAux old new xs

/-- `s.replace(old, new, 1)` for one-character `old`/`new`. -/
def pyReplaceFirst (old new : Char) (s : String) : String :=
  String.mk (replaceFirstAux old new s.toList)

/-- Core of `str.title()`: a cased (here: alphabetic) character is uppercased
when the previous character was not cased and lowercased otherwise; uncased
characters pass through. The boolean argument records whether the previous
character was cased. -/
def pyTitleAux : Bool → List Char → List Char
  | _, [] => []
  | prevCased, x :: xs =>
      (if x.isAlpha then (if prevCased then x.toLower else x.toUpper) else x)
        :: pyTitleAux x.isAlpha xs

/-- `str.title()` restricted to the ASCII alphanumeric-and-space strings this
module produces. -/
def pyTitle (s : String) : String :=
  String.mk (pyTitleAux false s.toList)

/-- Number of underscores in a string (used to state the round-trip law's
side condition on enum member names). -/
def underscoreCount (s : String) : Nat :=
  s.toList.countP (fun c => c == '_')

/-! ## The four enum classes (`ResourceDifficulty`, `Subject`, `Grade`,
`ChannelVisibility`) -/

/-- `class ResourceDifficulty(enum.Enum)`: EASY = 0, MODERATE = 1, HARD = 2,
SPECIALIST = 3. -/
inductive ResourceDifficulty
  | EASY | MODERATE | HARD | SPECIALIST
  deriving DecidableEq

/-- The `.name` attribute of a `ResourceDifficulty` member. -/
def ResourceDifficulty.name : ResourceDifficulty → String
  | .EASY => "EASY"
  | .MODERATE => "MODERATE"
  | .HARD => "HARD"
  | .SPECIALIST => "SPECIALIST"

/-- The member list of `ResourceDifficulty`, in declaration order. -/
def ResourceDifficulty.members : List ResourceDifficulty :=
  [.EASY, .MODERATE, .HARD, .SPECIALIST]

/-- `class Subject(enum.Enum)`: the 25 subject tags, values 0–24. -/
inductive Subject
  | ENGLISH | MATHS_A | MATHS_B | MATHS_C | BIOLOGY | GEOGRAPHY | CHEMISTRY
  | PHYSICS | ACCOUNTING | ECONOMICS | ANCIENT_HISTORY | LEGAL_STUDIES
  | BUSINESS_STUDIES | SOCIAL_STUDIES | DANCE | DRAMA | IT | MUSIC | DESIGN
  | PE | CHINESE | SPANISH | GERMAN | JAPANESE | OTHER
  deriving DecidableEq

/-- The `.name` attribute of a `Subject` member. -/
def Subject.name : Subject → String
  | .ENGLISH => "ENGLISH"
  | .MATHS_A => "MATHS_A"
  | .MATHS_B => "MATHS_B"
  | .MATHS_C => "MATHS_C"
  | .BIOLOGY => "BIOLOGY"
  | .GEOGRAPHY => "GEOGRAPHY"
  | .CHEMISTRY => "CHEMISTRY"
  | .PHYSICS => "PHYSICS"
  | .ACCOUNTING => "ACCOUNTING"
  | .ECONOMICS => "ECONOMICS"
  | .ANCIENT_HISTORY => "ANCIENT_HISTORY"
  | .LEGAL_STUDIES => "LEGAL_STUDIES"
  | .BUSINESS_STUDIES => "BUSINESS_STUDIES"
  | .SOCIAL_STUDIES => "SOCIAL_STUDIES"
  | .DANCE => "DANCE"
  | .DRAMA => "DRAMA"
  | .IT => "IT"
  | .MUSIC => "MUSIC"
  | .DESIGN => "DESIGN"
  | .PE => "PE"
  | .CHINESE => "CHINESE"
  | .SPANISH => "SPANISH"
  | .GERMAN => "GERMAN"
  | .JAPANESE => "JAPANESE"
  | .OTHER => "OTHER"

/-- The member list of `Subject`, in declaration order. -/
def Subject.members : List Subject :=
  [.ENGLISH, .MATHS_A, .MATHS_B, .MATHS_C, .BIOLOGY, .GEOGRAPHY, .CHEMISTRY,
   .PHYSICS, .ACCOUNTING, .ECONOMICS, .ANCIENT_HISTORY, .LEGAL_STUDIES,
   .BUSINESS_STUDIES, .SOCIAL_STUDIES, .DANCE, .DRAMA, .IT, .MUSIC, .DESIGN,
   .PE, .CHINESE, .SPANISH, .GERMAN, .JAPANESE, .OTHER]

/-- `class Grade(enum.Enum)`: KINDERGARTEN, YEAR_1 … YEAR_12, TERTIARY. -/
inductive Grade
  | KINDERGARTEN | YEAR_1 | YEAR_2 | YEAR_3 | YEAR_4 | YEAR_5 | YEAR_6
  | YEAR_7 | YEAR_8 | YEAR_9 | YEAR_10 | YEAR_11 | YEAR_12 | TERTIARY
  deriving DecidableEq

/-- The `.name` attribute of a `Grade` member. -/
def Grade.name : Grade → String
  | .KINDERGARTEN => "KINDERGARTEN"
  | .YEAR_1 => "YEAR_1"
  | .YEAR_2 => "YEAR_2"
  | .YEAR_3 => "YEAR_3"
  | .YEAR_4 => "YEAR_4"
  | .YEAR_5 => "YEAR_5"
  | .YEAR_6 => "YEAR_6"
  | .YEAR_7 => "YEAR_7"
  | .YEAR_8 => "YEAR_8"
  | .YEAR_9 => "YEAR_9"
  | .YEAR_10 => "YEAR_10"
  | .YEAR_11 => "YEAR_11"
  | .YEAR_12 => "YEAR_12"
  | .TERTIARY => "TERTIARY"

/-- The member list of `Grade`, in declaration order. -/
def Grade.members : List Grade :=
  [.KINDERGARTEN, .YEAR_1, .YEAR_2, .YEAR_3, .YEAR_4, .YEAR_5, .YEAR_6,
   .YEAR_7, .YEAR_8, .YEAR_9, .YEAR_10, .YEAR_11, .YEAR_12, .TERTIARY]

/-- `class ChannelVisibility(enum.Enum)`: INVITE_ONLY = 0, FULLY_PRIVATE = 1,
PUBLIC = 2. -/
inductive ChannelVisibility
  | INVITE_ONLY | FULLY_PRIVATE | PUBLIC
  deriving DecidableEq

/-- The `.name` attribute of a `ChannelVisibility` member. -/
def ChannelVisibility.name : ChannelVisibility → String
  | .INVITE_ONLY => "INVITE_ONLY"
  | .FULLY_PRIVATE => "FULLY_PRIVATE"
  | .PUBLIC => "PUBLIC"

/-- The member list of `ChannelVisibility`, in declaration order. -/
def ChannelVisibility.members : List ChannelVisibility :=
  [.INVITE_ONLY, .FULLY_PRIVATE, .PUBLIC]

/-! ## The two enum/string conversion helpers -/

/-- `enum_to_website_output(item)`:
`return item.name.lower().replace('_', ' ', 1).title()`.
A Lean enum type stands in for the Python enum class through its `.name`
function, passed explicitly as `nm`. -/
def enum_to_website_output {E : Type} (nm : E → String) (item : E) : String :=
  pyTitle (pyReplaceFirst '_' ' ' (pyLower (nm item)))

/-- `website_input_to_enum(readable_string, enum_class, verbose=True)`:
`value = readable_string.upper().replace(' ', '_', 1)`, then
`return enum_class[value]`, and on `KeyError` print
`f"value {readable_string} not found in enum class {enum_class}"` and return
`None`.  The Python enum class is passed as its `.name` function `nm`, its
member list `members` (member names are distinct, so indexing by name is
`List.find?` on the name) and its printed form `cls`.  The result pairs the
returned value with the list of lines printed to stdout, which makes the
unconditional diagnostic observable; `verbose` is accepted exactly as in the
source, where it is never read. -/
def website_input_to_enum {E : Type} (nm : E → String) (members : List E)
    (cls : String) (readable_string : String) (verbose : Bool) :
    Option E × List String :=
  let value := pyReplaceFirst ' ' '_' (pyUpper readable_string)
  match members.find? (fun m => nm m == value) with
  | some m => (some m, [])
  | none =>
      (none, ["value " ++ readable_string ++ " not found in enum class " ++ cls])

/-! ## Password base64 encode/decode

`ascii_to_base64` is `base64.b64encode(password.encode()).decode()` and
`base64_to_ascii` is `base64.b64decode(encoded_password.encode()).decode()`.
`password.encode()` is the UTF-8 byte sequence of the password, modelled as a
`List Nat` of bytes (each below 256); the base64 text is a `List Char` over
the base64 alphabet plus `=` padding. -/

/-- The standard base64 alphabet used by `base64.b64encode`. -/
def b64alphabet : List Char :=
  "ABCDEFGHIJKLMNOPQRSTUVWXYZabcdefghijklmnopqrstuvwxyz0123456789+/".toList

/-- The base64 character of a six-bit group (`n < 64` always holds at call
sites; the `'='` fallback is never reached there). -/
def sextetChar (n : Nat) : Char :=
  b64alphabet.getD n '='

/-- The six-bit value of a base64 alphabet character. -/
def sextetVal (c : Char) : Nat :=
  b64alphabet.indexOf c

/-- `base64.b64encode` on a byte sequence: each 3-byte group becomes 4 base64
characters; a trailing 2-byte group becomes 3 characters plus `=`, a trailing
1-byte group 2 characters plus `==`. -/
def b64encode : List Nat → List Char
  | a :: b :: c :: rest =>
      sextetChar (a / 4) :: sextetChar (a % 4 * 16 + b / 16) ::
        sextetChar (b % 16 * 4 + c / 64) :: sextetChar (c % 64) :: b64encode rest
  | [a, b] =>
      [sextetChar (a / 4), sextetChar (a % 4 * 16 + b / 16),
       sextetChar (b % 16 * 4), '=']
  | [a] => [sextetChar (a / 4), sextetChar (a % 4 * 16), '=', '=']
  | [] => []

/-- `base64.b64decode` on properly padded base64 text: each 4-character group
yields 3 bytes, or 1 byte (group ending `==`) or 2 bytes (group ending `=`)
for the final group. -/
def b64decode : List Char → List Nat
  | c1 :: c2 :: c3 :: c4 :: rest =>
      if c3 = '=' then
        [sextetVal c1 * 4 + sextetVal c2 / 16]
      else if c4 = '=' then
        [sextetVal c1 * 4 + sextetVal c2 / 16,
         sextetVal c2 % 16 * 16 + sextetVal c3 / 4]
      else
        (sextetVal c1 * 4 + sextetVal c2 / 16) ::
          (sextetVal c2 % 16 * 16 + sextetVal c3 / 4) ::
          (sextetVal c3 % 4 * 64 + sextetVal c4) :: b64decode rest
  | _ => []

/-- `ascii_to_base64(password)`: encode the password's bytes to base64 text. -/
def ascii_to_base64 (password : List Nat) : List Char :=
  b64encode password

/-- `base64_to_ascii(encoded_password)`: decode base64 text back to the
password's bytes. -/
def base64_to_ascii (encoded_password : List Char) : List Nat :=
  b64decode encoded_password

/-! ## Row types of the eighteen tables

One structure per SQLAlchemy model class, one field per column, in source
order.  `Integer` columns are `Nat` ids or `Int` counters, `Numeric` is
`Int`, `String`/`Text` is `String`, `Boolean` is `Bool`, `DateTime` is an
abstract clock reading `Nat`, and a nullable column is an `Option`.  Foreign
key columns declared without `nullable=False` and without `primary_key=True`
are nullable (SQLAlchemy's default), hence `Option Nat`. -/

/-- A row of table `user`. -/
structure UserRow where
  uid : Nat
  username : String
  avatar_link : Option String
  created_at : Nat
  password : String
  user_rating : Int
  email : String
  bio : Option String
  deriving DecidableEq

/-- A row of table `user_teaching_areas`; PK `(uid, teaching_area)`, `uid`
references `user.uid`. -/
structure UserTeachingAreasRow where
  uid : Nat
  teaching_area : Subject
  grade : Option Grade
  is_public : Bool
  deriving DecidableEq

/-- A row of table `resource`. -/
structure ResourceRow where
  rid : Nat
  title : String
  resource_link : String
  created_at : Nat
  difficulty : ResourceDifficulty
  subject : Subject
  grade : Grade
  upvote_count : Int
  downvote_count : Int
  is_public : Bool
  description : Option String
  deriving DecidableEq

/-- A row of table `resource_view`; PK `(rid, uid)`, both foreign keys. -/
structure ResourceViewRow where
  rid : Nat
  uid : Nat
  created_at : Nat
  deriving DecidableEq

/-- A row of table `resource_vote_info`; PK `(uid, rid)`, both foreign
keys. -/
structure ResourceVoteInfoRow where
  uid : Nat
  rid : Nat
  is_upvote : Bool
  deriving DecidableEq

/-- A row of table `resource_creater`; PK `(rid, uid)`, both foreign keys. -/
structure ResourceCreaterRow where
  rid : Nat
  uid : Nat
  deriving DecidableEq

/-- A row of table `resource_comment`; `uid` and `rid` are nullable foreign
keys. -/
structure ResourceCommentRow where
  resource_comment_id : Nat
  uid : Option Nat
  created_at : Nat
  rid : Option Nat
  comment : String
  deriving DecidableEq

/-- A row of table `resource_comment_reply`; PK
`(resource_comment_id, created_at, uid)`. -/
structure ResourceCommentReplyRow where
  resource_comment_id : Nat
  reply : String
  created_at : Nat
  uid : Nat
  deriving DecidableEq

/-- A row of table `private_resource_personnel`; PK `(rid, uid)`. -/
structure PrivateResourcePersonnelRow where
  rid : Nat
  uid : Nat
  deriving DecidableEq

/-- A row of table `tag`. -/
structure TagRow where
  tag_id : Nat
  tag_name : String
  tag_description : Option String
  deriving DecidableEq

/-- A row of table `resource_tag_record`; PK `(tag_id, rid)`. -/
structure ResourceTagRecordRow where
  tag_id : Nat
  rid : Nat
  deriving DecidableEq

/-- A row of table `channel`; `admin_uid` is a nullable foreign key to
`user.uid`. -/
structure ChannelRow where
  cid : Nat
  subject : Option Subject
  grade : Option Grade
  visibility : ChannelVisibility
  name : String
  admin_uid : Option Nat
  description : Option String
  deriving DecidableEq

/-- A row of table `channel_personnel`; PK `(cid, uid)`. -/
structure ChannelPersonnelRow where
  cid : Nat
  uid : Nat
  deriving DecidableEq

/-- A row of table `channel_tag_record`; PK `(tag_id, cid)`. -/
structure ChannelTagRecordRow where
  tag_id : Nat
  cid : Nat
  deriving DecidableEq

/-- A row of table `channel_post`; `uid` (creator, references `user.uid`)
and `cid` (references `channel.cid`) are nullable foreign keys.  Note the
source declares a `relationship` only for `cid`; the `uid` foreign key has
no relationship and hence no cascade configuration. -/
structure ChannelPostRow where
  post_id : Nat
  uid : Option Nat
  cid : Option Nat
  title : String
  upvote_count : Int
  downvote_count : Int
  init_text : String
  created_at : Nat
  deriving DecidableEq

/-- A row of table `channel_post_vote_info`; PK `(post_id, uid)`. -/
structure ChannelPostVoteInfoRow where
  post_id : Nat
  uid : Nat
  is_upvote : Bool
  deriving DecidableEq

/-- A row of table `post_comment`; `post_id` and `uid` are nullable foreign
keys. -/
structure PostCommentRow where
  post_comment_id : Nat
  post_id : Option Nat
  created_at : Nat
  uid : Option Nat
  text : String
  upvote_count : Int
  downvote_count : Int
  deriving DecidableEq

/-- A row of table `post_comment_vote_info`; PK `(post_comment_id, uid)`. -/
structure PostCommentVoteInfoRow where
  post_comment_id : Nat
  uid : Nat
  is_upvote : Bool
  deriving DecidableEq

/-- The state of the whole schema: one row list per table, in declaration
order of the eighteen model classes. -/
structure Database where
  users : List UserRow
  user_teaching_areas : List UserTeachingAreasRow
  resources : List ResourceRow
  resource_views : List ResourceViewRow
  resource_vote_infos : List ResourceVoteInfoRow
  resource_creaters : List ResourceCreaterRow
  resource_comments : List ResourceCommentRow
  resource_comment_replies : List ResourceCommentReplyRow
  private_resource_personnels : List PrivateResourcePersonnelRow
  tags : List TagRow
  resource_tag_records : List ResourceTagRecordRow
  channels : List ChannelRow
  channel_personnels : List ChannelPersonnelRow
  channel_tag_records : List ChannelTagRecordRow
  channel_posts : List ChannelPostRow
  channel_post_vote_infos : List ChannelPostVoteInfoRow
  post_comments : List PostCommentRow
  post_comment_vote_infos : List PostCommentVoteInfoRow
  deriving DecidableEq

/-! ## ORM-level cascade deletion

Every `relationship(...)` call in the source carries
`backref=backref(..., cascade="all, delete")` (sometimes written
`"all,delete"`), so `session.delete(parent)` deletes, transitively, every row
reachable through a declared relationship whose foreign key matches the
deleted parent's primary key.  The one exception is `ChannelPost.uid`
(the post creator, a foreign key to `user.uid`): `ChannelPost` declares a
relationship only for `cid`, so deleting a user does not touch the posts the
user created.  Each function below is the effect of `session.delete` on one
parent row identified by its primary key, with all configured cascades
applied transitively. -/

/-- Delete the `post_comment` row with the given id; cascades to
`post_comment_vote_info` (relationship `post_comment`). -/
def deletePostComment (db : Database) (pcid : Nat) : Database :=
  { db with
    post_comments := db.post_comments.filter
      (fun r => r.post_comment_id != pcid),
    post_comment_vote_infos := db.post_comment_vote_infos.filter
      (fun r => r.post_comment_id != pcid) }

/-- Delete the `channel_post` row with the given id; cascades to
`channel_post_vote_info` and `post_comment` (relationship `thread`), and
through the deleted comments to `post_comment_vote_info`. -/
def deleteChannelPost (db : Database) (pid : Nat) : Database :=
  let deadComments :=
    (db.post_comments.filter (fun r => r.post_id == some pid)).map
      (fun r => r.post_comment_id)
  { db with
    channel_posts := db.channel_posts.filter (fun r => r.post_id != pid),
    channel_post_vote_infos := db.channel_post_vote_infos.filter
      (fun r => r.post_id != pid),
    post_comments := db.post_comments.filter (fun r => r.post_id != some pid),
    post_comment_vote_infos := db.post_comment_vote_infos.filter
      (fun r => !(deadComments.contains r.post_comment_id)) }

/-- Delete the `channel` row with the given id; cascades to
`channel_personnel`, `channel_tag_record` and `channel_post`, and through the
deleted posts to `channel_post_vote_info`, `post_comment` and
`post_comment_vote_info`. -/
def deleteChannel (db : Database) (cid : Nat) : Database :=
  let deadPosts :=
    (db.channel_posts.filter (fun r => r.cid == some cid)).map
      (fun r => r.post_id)
  let deadComments :=
    (db.post_comments.filter
      (fun r => match r.post_id with
        | some p => deadPosts.contains p
        | none => false)).map (fun r => r.post_comment_id)
  { db with
    channels := db.channels.filter (fun r => r.cid != cid),
    channel_personnels := db.channel_personnels.filter
      (fun r => r.cid != cid),
    channel_tag_records := db.channel_tag_records.filter
      (fun r => r.cid != cid),
    channel_posts := db.channel_posts.filter (fun r => r.cid != some cid),
    channel_post_vote_infos := db.channel_post_vote_infos.filter
      (fun r => !(deadPosts.contains r.post_id)),
    post_comments := db.post_comments.filter
      (fun r => !(deadComments.contains r.post_comment_id)),
    post_comment_vote_infos := db.post_comment_vote_infos.filter
      (fun r => !(deadComments.contains r.post_comment_id)) }

/-- Delete the `resource_comment` row with the given id; cascades to
`resource_comment_reply` (relationship `resource_comment`). -/
def deleteResourceComment (db : Database) (rcid : Nat) : Database :=
  { db with
    resource_comments := db.resource_comments.filter
      (fun r => r.resource_comment_id != rcid),
    resource_comment_replies := db.resource_comment_replies.filter
      (fun r => r.resource_comment_id != rcid) }

/-- Delete the `resource` row with the given id; cascades to
`resource_view`, `resource_vote_info`, `resource_creater`,
`private_resource_personnel`, `resource_tag_record` and `resource_comment`,
and through the deleted comments to `resource_comment_reply`. -/
def deleteResource (db : Database) (rid : Nat) : Database :=
  let deadComments :=
    (db.resource_comments.filter (fun r => r.rid == some rid)).map
      (fun r => r.resource_comment_id)
  { db with
    resources := db.resources.filter (fun r => r.rid != rid),
    resource_views := db.resource_views.filter (fun r => r.rid != rid),
    resource_vote_infos := db.resource_vote_infos.filter
      (fun r => r.rid != rid),
    resource_creaters := db.resource_creaters.filter (fun r => r.rid != rid),
    private_resource_personnels := db.private_resource_personnels.filter
      (fun r => r.rid != rid),
    resource_tag_records := db.resource_tag_records.filter
      (fun r => r.rid != rid),
    resource_comments := db.resource_comments.filter
      (fun r => r.rid != some rid),
    resource_comment_replies := db.resource_comment_replies.filter
      (fun r => !(deadComments.contains r.resource_comment_id)) }

/-- Delete the `tag` row with the given id; cascades to
`resource_tag_record` and `channel_tag_record`. -/
def deleteTag (db : Database) (tid : Nat) : Database :=
  { db with
    tags := db.tags.filter (fun r => r.tag_id != tid),
    resource_tag_records := db.resource_tag_records.filter
      (fun r => r.tag_id != tid),
    channel_tag_records := db.channel_tag_records.filter
      (fun r => r.tag_id != tid) }

/-- Delete the `user` row with the given id.  Cascades, per the declared
relationships, to `user_teaching_areas`, `resource_view`,
`resource_vote_info`, `resource_creater`, `resource_comment` (and through it
`resource_comment_reply`), `resource_comment_reply` (as replier),
`private_resource_personnel`, `channel` (as admin, and through it
`channel_personnel`, `channel_tag_record`, `channel_post`,
`channel_post_vote_info`, `post_comment`, `post_comment_vote_info`),
`channel_personnel`, `channel_post_vote_info`, `post_comment` (and through
it `post_comment_vote_info`) and `post_comment_vote_info`.  `channel_post`
rows created by the user are NOT deleted: `ChannelPost.uid` has no
relationship, hence no cascade. -/
def deleteUser (db : Database) (u : Nat) : Database :=
  let deadChannels :=
    (db.channels.filter (fun r => r.admin_uid == some u)).map (fun r => r.cid)
  let deadPosts :=
    (db.channel_posts.filter
      (fun r => match r.cid with
        | some c => deadChannels.contains c
        | none => false)).map (fun r => r.post_id)
  let deadResourceComments :=
    (db.resource_comments.filter (fun r => r.uid == some u)).map
      (fun r => r.resource_comment_id)
  let deadPostComments :=
    (db.post_comments.filter
      (fun r => r.uid == some u ||
        (match r.post_id with
          | some p => deadPosts.contains p
          | none => false))).map (fun r => r.post_comment_id)
  { db with
    users := db.users.filter (fun r => r.uid != u),
    user_teaching_areas := db.user_teaching_areas.filter
      (fun r => r.uid != u),
    resource_views := db.resource_views.filter (fun r => r.uid != u),
    resource_vote_infos := db.resource_vote_infos.filter
      (fun r => r.uid != u),
    resource_creaters := db.resource_creaters.filter (fun r => r.uid != u),
    resource_comments := db.resource_comments.filter
      (fun r => r.uid != some u),
    resource_comment_replies := db.resource_comment_replies.filter
      (fun r => !(r.uid == u ||
        deadResourceComments.contains r.resource_comment_id)),
    private_resource_personnels := db.private_resource_personnels.filter
      (fun r => r.uid != u),
    channels := db.channels.filter (fun r => r.admin_uid != some u),
    channel_personnels := db.channel_personnels.filter
      (fun r => !(r.uid == u || deadChannels.contains r.cid)),
    channel_tag_records := db.channel_tag_records.filter
      (fun r => !(deadChannels.contains r.cid)),
    channel_posts := db.channel_posts.filter
      (fun r => !(deadPosts.contains r.post_id)),
    channel_post_vote_infos := db.channel_post_vote_infos.filter
      (fun r => !(r.uid == u || deadPosts.contains r.post_id)),
    post_comments := db.post_comments.filter
      (fun r => !(deadPostComments.contains r.post_comment_id)),
    post_comment_vote_infos := db.post_comment_vote_infos.filter
      (fun r => !(r.uid == u ||
        deadPostComments.contains r.post_comment_id)) }

/-! ## Referential integrity -/

/-- A nullable foreign key is satisfied when absent or when its value is
among the parent keys. -/
def fkSome (parents : List Nat) : Option Nat → Bool
  | none => true
  | some v => parents.contains v

/-- Every foreign key column of every table references an existing parent
row (NULL foreign keys are vacuously fine). -/
def refIntegrity (db : Database) : Bool :=
  let uids := db.users.map (fun r => r.uid)
  let rids := db.resources.map (fun r => r.rid)
  let rcids := db.resource_comments.map (fun r => r.resource_comment_id)
  let tids := db.tags.map (fun r => r.tag_id)
  let cids := db.channels.map (fun r => r.cid)
  let pids := db.channel_posts.map (fun r => r.post_id)
  let pcids := db.post_comments.map (fun r => r.post_comment_id)
  db.user_teaching_areas.all (fun r => uids.contains r.uid) &&
  db.resource_views.all
    (fun r => rids.contains r.rid && uids.contains r.uid) &&
  db.resource_vote_infos.all
    (fun r => uids.contains r.uid && rids.contains r.rid) &&
  db.resource_creaters.all
    (fun r => rids.contains r.rid && uids.contains r.uid) &&
  db.resource_comments.all
    (fun r => fkSome uids r.uid && fkSome rids r.rid) &&
  db.resource_comment_replies.all
    (fun r => rcids.contains r.resource_comment_id && uids.contains r.uid) &&
  db.private_resource_personnels.all
    (fun r => rids.contains r.rid && uids.contains r.uid) &&
  db.resource_tag_records.all
    (fun r => tids.contains r.tag_id && rids.contains r.rid) &&
  db.channels.all (fun r => fkSome uids r.admin_uid) &&
  db.channel_personnels.all
    (fun r => cids.contains r.cid && uids.contains r.uid) &&
  db.channel_tag_records.all
    (fun r => tids.contains r.tag_id && cids.contains r.cid) &&
  db.channel_posts.all
    (fun r => fkSome uids r.uid && fkSome cids r.cid) &&
  db.channel_post_vote_infos.all
    (fun r => pids.contains r.post_id && uids.contains r.uid) &&
  db.post_comments.all
    (fun r => fkSome pids r.post_id && fkSome uids r.uid) &&
  db.post_comment_vote_infos.all
    (fun r => pcids.contains r.post_comment_id && uids.contains r.uid)

/-! ## Composite-primary-key insertion

Each association table declares `primary_key=True` on two (for
`resource_comment_reply`, three) columns, forming a composite primary key.
An insert whose key tuple already occurs in the table violates the primary
key and is rejected; the table is unchanged. -/

/-- Insert a row into a table keyed by `key`: rejected (`none`) when a row
with the same key tuple is already present, otherwise the row is appended. -/
def insertUnique {α κ : Type} [DecidableEq κ] (key : α → κ)
    (table : List α) (row : α) : Option (List α) :=
  if table.any (fun r => decide (key r = key row)) then none
  else some (table ++ [row])

/-- Composite primary key of `user_teaching_areas`:
`(uid, teaching_area)`. -/
def UserTeachingAreasRow.key (r : UserTeachingAreasRow) : Nat × Subject :=
  (r.uid, r.teaching_area)

/-- Composite primary key of `resource_view`: `(rid, uid)`. -/
def ResourceViewRow.key (r : ResourceViewRow) : Nat × Nat :=
  (r.rid, r.uid)

/-- Composite primary key of `resource_vote_info`: `(uid, rid)`. -/
def ResourceVoteInfoRow.key (r : ResourceVoteInfoRow) : Nat × Nat :=
  (r.uid, r.rid)

/-- Composite primary key of `resource_creater`: `(rid, uid)`. -/
def ResourceCreaterRow.key (r : ResourceCreaterRow) : Nat × Nat :=
  (r.rid, r.uid)

/-- Composite primary key of `resource_comment_reply`:
`(resource_comment_id, created_at, uid)`. -/
def ResourceCommentReplyRow.key (r : ResourceCommentReplyRow) :
    Nat × Nat × Nat :=
  (r.resource_comment_id, r.created_at, r.uid)

/-- Composite primary key of `private_resource_personnel`: `(rid, uid)`. -/
def PrivateResourcePersonnelRow.key (r : PrivateResourcePersonnelRow) :
    Nat × Nat :=
  (r.rid, r.uid)

/-- Composite primary key of `resource_tag_record`: `(tag_id, rid)`. -/
def ResourceTagRecordRow.key (r : ResourceTagRecordRow) : Nat × Nat :=
  (r.tag_id, r.rid)

/-- Composite primary key of `channel_personnel`: `(cid, uid)`. -/
def ChannelPersonnelRow.key (r : ChannelPersonnelRow) : Nat × Nat :=
  (r.cid, r.uid)

/-- Composite primary key of `channel_tag_record`: `(tag_id, cid)`. -/
def ChannelTagRecordRow.key (r : ChannelTagRecordRow) : Nat × Nat :=
  (r.tag_id, r.cid)

/-- Composite primary key of `channel_post_vote_info`: `(post_id, uid)`. -/
def ChannelPostVoteInfoRow.key (r : ChannelPostVoteInfoRow) : Nat × Nat :=
  (r.post_id, r.uid)

/-- Composite primary key of `post_comment_vote_info`:
`(post_comment_id, uid)`. -/
def PostCommentVoteInfoRow.key (r : PostCommentVoteInfoRow) : Nat × Nat :=
  (r.post_comment_id, r.uid)

/-! ## Column defaults captured at module load

Seven tables declare
`created_at = Column(DateTime, default=datetime.datetime.now(tz=pytz.timezone("Australia/Brisbane")))`.
The `datetime.datetime.now(...)` call is an ordinary expression inside the
class body, so Python evaluates it once, while the module is imported, and
passes the resulting `datetime` VALUE as the column default.  Every later
insert that omits `created_at` therefore receives that one frozen value;
the clock reading at insert time plays no part. -/

/-- The value of `datetime.datetime.now(tz=pytz.timezone("Australia/Brisbane"))`
as evaluated during module import, given the clock reading `loadTime` at
that moment. -/
def moduleLoadNow (loadTime : Nat) : Nat := loadTime

/-- A `user` row inserted at clock reading `now` without an explicit
`created_at` (defaults also fill `avatar_link`, `user_rating` and `bio`). -/
def mkUserRowDefault (loadTime now uid : Nat)
    (username password email : String) : UserRow :=
  { uid := uid, username := username, avatar_link := none,
    created_at := moduleLoadNow loadTime, password := password,
    user_rating := 0, email := email, bio := none }

/-- A `resource` row inserted at clock reading `now` without an explicit
`created_at`. -/
def mkResourceRowDefault (loadTime now rid : Nat)
    (title resource_link : String) (difficulty : ResourceDifficulty)
    (subject : Subject) (grade : Grade) : ResourceRow :=
  { rid := rid, title := title, resource_link := resource_link,
    created_at := moduleLoadNow loadTime, difficulty := difficulty,
    subject := subject, grade := grade, upvote_count := 0,
    downvote_count := 0, is_public := true, description := none }

/-- A `resource_view` row inserted at clock reading `now` without an
explicit `created_at`. -/
def mkResourceViewRowDefault (loadTime now rid uid : Nat) : ResourceViewRow :=
  { rid := rid, uid := uid, created_at := moduleLoadNow loadTime }

/-- A `resource_comment` row inserted at clock reading `now` without an
explicit `created_at`. -/
def mkResourceCommentRowDefault (loadTime now rcid : Nat)
    (uid rid : Option Nat) (comment : String) : ResourceCommentRow :=
  { resource_comment_id := rcid, uid := uid,
    created_at := moduleLoadNow loadTime, rid := rid, comment := comment }

/-- A `resource_comment_reply` row inserted at clock reading `now` without
an explicit `created_at`. -/
def mkResourceCommentReplyRowDefault (loadTime now rcid uid : Nat)
    (reply : String) : ResourceCommentReplyRow :=
  { resource_comment_id := rcid, reply := reply,
    created_at := moduleLoadNow loadTime, uid := uid }

/-- A `channel_post` row inserted at clock reading `now` without an explicit
`created_at`. -/
def mkChannelPostRowDefault (loadTime now pid : Nat) (uid cid : Option Nat)
    (title init_text : String) : ChannelPostRow :=
  { post_id := pid, uid := uid, cid := cid, title := title,
    upvote_count := 0, downvote_count := 0, init_text := init_text,
    created_at := moduleLoadNow loadTime }

/-- A `post_comment` row inserted at clock reading `now` without an explicit
`created_at`. -/
def mkPostCommentRowDefault (loadTime now pcid : Nat)
    (post_id uid : Option Nat) (text : String) : PostCommentRow :=
  { post_comment_id := pcid, post_id := post_id,
    created_at := moduleLoadNow loadTime, uid := uid, text := text,
    upvote_count := 0, downvote_count := 0 }

/-! ## Spec-side label construction (for the refinement comparison)

The spec describes `enum_to_website_output` as: take the member's symbolic
name, lowercase it, replace only the first underscore with a space, then
title-case each word.  `specLabel` below follows that wording, with
"title-case each word" read as: split on spaces, uppercase the first
character of each word and lowercase the rest, rejoin with spaces.  It is
compared with the source-derived `enum_to_website_output` (which uses
Python's `str.title()`). -/

/-- Title-case one word: uppercase its first character, lowercase the
rest. -/
def specCapitalizeWord : List Char → List Char
  | [] => []
  | c :: cs => c.toUpper :: cs.map Char.toLower

/-- Split a character list at every occurrence of `sep` (adjacent
separators yield empty words, as with `str.split(' ')`). -/
def splitOnChar (sep : Char) : List Char → List (List Char)
  | [] => [[]]
  | c :: cs =>
    match splitOnChar sep cs with
    | [] => [[]]
    | w :: ws => if c = sep then [] :: w :: ws else (c :: w) :: ws

/-- Title-case each space-separated word of a string. -/
def specTitleWords (s : String) : String :=
  String.mk
    (List.intercalate [' ']
      ((splitOnChar ' ' s.toList).map specCapitalizeWord))

/-- The spec's wording of the label algorithm: lowercase the symbolic name,
replace only the first underscore with a space, then title-case each
word. -/
def specLabel (symbolicName : String) : String :=
  specTitleWords (pyReplaceFirst '_' ' ' (pyLower symbolicName))

/-! ## A concrete database configuration (for the cascade claims)

Two users, a teaching area for user 1, a channel administered by user 2,
and a post created by user 1 inside that channel.  Every foreign key
references an existing row. -/

/-- The concrete configuration described above. -/
def exampleDb : Database :=
  { users := [⟨1, "alice", none, 0, "cGFzcw==", 0, "alice@ex.com", none⟩,
              ⟨2, "bob", none, 0, "cGFzcw==", 0, "bob@ex.com", none⟩],
    user_teaching_areas := [⟨1, Subject.ENGLISH, none, true⟩],
    resources := [],
    resource_views := [],
    resource_vote_infos := [],
    resource_creaters := [],
    resource_comments := [],
    resource_comment_replies := [],
    private_resource_personnels := [],
    tags := [],
    resource_tag_records := [],
    channels := [⟨10, none, none, ChannelVisibility.PUBLIC, "general",
                  some 2, none⟩],
    channel_personnels := [],
    channel_tag_records := [],
    channel_posts := [⟨100, some 1, some 10, "hello", 0, 0, "hi all", 0⟩],
    channel_post_vote_infos := [],
    post_comments := [],
    post_comment_vote_infos := [] }

/-! ## Helper lemmas -/

/-- A base64 character of a six-bit group decodes back to that group. -/
theorem sextetVal_sextetChar : ∀ n, n < 64 → sextetVal (sextetChar n) = n := by
  decide

/-- A base64 character of a six-bit group is never the padding character. -/
theorem sextetChar_ne_pad : ∀ n, n < 64 → sextetChar n ≠ '=' := by
  decide

/-- Decoding inverts encoding on byte sequences. -/
theorem b64decode_b64encode :
    ∀ (p : List Nat), (∀ x ∈ p, x < 256) → b64decode (b64encode p) = p
  | a :: b :: c :: rest, h => by
    have ha : a < 256 := h a (by simp)
    have hb : b < 256 := h b (by simp)
    have hc : c < 256 := h c (by simp)
    have h1 : a / 4 < 64 := by omega
    have h2 : a % 4 * 16 + b / 16 < 64 := by omega
    have h3 : b % 16 * 4 + c / 64 < 64 := by omega
    have h4 : c % 64 < 64 := by omega
    have ih := b64decode_b64encode rest (fun x hx => h x (by simp [hx]))
    simp only [b64encode, b64decode]
    rw [if_neg (sextetChar_ne_pad _ h3), if_neg (sextetChar_ne_pad _ h4),
      sextetVal_sextetChar _ h1, sextetVal_sextetChar _ h2,
      sextetVal_sextetChar _ h3, sextetVal_sextetChar _ h4]
    have e1 : a / 4 * 4 + (a % 4 * 16 + b / 16) / 16 = a := by omega
    have e2 : (a % 4 * 16 + b / 16) % 16 * 16 + (b % 16 * 4 + c / 64) / 4 = b := by
      omega
    have e3 : (b % 16 * 4 + c / 64) % 4 * 64 + c % 64 = c := by omega
    rw [e1, e2, e3, ih]
  | [a, b], h => by
    have ha : a < 256 := h a (by simp)
    have hb : b < 256 := h b (by simp)
    have h1 : a / 4 < 64 := by omega
    have h2 : a % 4 * 16 + b / 16 < 64 := by omega
    have h3 : b % 16 * 4 < 64 := by omega
    simp only [b64encode, b64decode]
    rw [if_neg (sextetChar_ne_pad _ h3)]
    simp only [if_true]
    rw [sextetVal_sextetChar _ h1, sextetVal_sextetChar _ h2,
      sextetVal_sextetChar _ h3]
    have e1 : a / 4 * 4 + (a % 4 * 16 + b / 16) / 16 = a := by omega
    have e2 : (a % 4 * 16 + b / 16) % 16 * 16 + b % 16 * 4 / 4 = b := by omega
    rw [e1, e2]
  | [a], h => by
    have ha : a < 256 := h a (by simp)
    have h1 : a / 4 < 64 := by omega
    have h2 : a % 4 * 16 < 64 := by omega
    simp only [b64encode, b64decode]
    simp only [if_true]
    rw [sextetVal_sextetChar _ h1, sextetVal_sextetChar _ h2]
    have e1 : a / 4 * 4 + a % 4 * 16 / 16 = a := by omega
    rw [e1]
  | [], _ => rfl

/-- `find?` returns the element `m` when `m` satisfies the predicate, is in
the list, and is the only member of the list satisfying it. -/
theorem find_unique {E : Type} (p : E → Bool) (m : E) :
    ∀ (l : List E), m ∈ l → p m = true → (∀ a ∈ l, p a = true → a = m) →
      l.find? p = some m := by
  intro l
  induction l with
  | nil => intro hmem; cases hmem
  | cons a l ih =>
    intro hmem hpm huniq
    by_cases hpa : p a = true
    · have : a = m := huniq a (by simp) hpa
      subst this
      simp [List.find?_cons, hpa]
    · have hma : m ∈ l := by
        rcases List.mem_cons.mp hmem with h | h
        · exact absurd (h ▸ hpm) hpa
        · exact h
      have : l.find? p = some m :=
        ih hma hpm (fun x hx hpx => huniq x (List.mem_cons_of_mem _ hx) hpx)
      simp [List.find?_cons, hpa, this]

/-- An insert whose key tuple already occurs in the table is rejected. -/
theorem insertUnique_mem_rejects {α κ : Type} [DecidableEq κ] (key : α → κ)
    (t : List α) (r₁ r₂ : α) (h₁ : r₁ ∈ t) (h₂ : key r₂ = key r₁) :
    insertUnique key t r₂ = none := by
  unfold insertUnique
  rw [if_pos]
  exact List.any_eq_true.mpr ⟨r₁, h₁, by simp [h₂]⟩

/-- `mkUserRowDefault` and friends stamp the frozen module-load time. -/
theorem frozen_ne_insert_time {lt t : Nat} (h : t ≠ lt) :
    moduleLoadNow lt ≠ t :=
  fun hc => h (hc ▸ rfl)

/-! ## The claims -/

/-- C1: the claim says deleting a parent row cascade-deletes every row of
every dependent table referencing it, so no foreign key ever references a
nonexistent row.  On `exampleDb` this fails: deleting user 1 removes the
user row and its `user_teaching_areas` row (that part of the claim holds),
but the `channel_post` row created by user 1 survives untouched — the
`ChannelPost.uid` foreign key has no relationship and hence no cascade — so
after the delete a `channel_post.uid` references the deleted user and
referential integrity is broken. -/
theorem deleteUser_leaves_dangling_channel_post :
    refIntegrity exampleDb = true ∧
    (deleteUser exampleDb 1).users.all (fun r => r.uid != 1) = true ∧
    (deleteUser exampleDb 1).user_teaching_areas = [] ∧
    (deleteUser exampleDb 1).channel_posts =
      [⟨100, some 1, some 10, "hello", 0, 0, "hi all", 0⟩] ∧
    refIntegrity (deleteUser exampleDb 1) = false := by
  decide

/-- C2: for every member `m` of each of the four enum classes whose symbolic
name contains at most one underscore,
`website_input_to_enum(enum_to_website_output(m), E) == m`. -/
theorem enum_roundtrip_of_at_most_one_underscore :
    (∀ m : ResourceDifficulty,
      underscoreCount (ResourceDifficulty.name m) ≤ 1 →
      (website_input_to_enum ResourceDifficulty.name
        ResourceDifficulty.members "ResourceDifficulty"
        (enum_to_website_output ResourceDifficulty.name m) true).1 = some m) ∧
    (∀ m : Subject,
      underscoreCount (Subject.name m) ≤ 1 →
      (website_input_to_enum Subject.name Subject.members "Subject"
        (enum_to_website_output Subject.name m) true).1 = some m) ∧
    (∀ m : Grade,
      underscoreCount (Grade.name m) ≤ 1 →
      (website_input_to_enum Grade.name Grade.members "Grade"
        (enum_to_website_output Grade.name m) true).1 = some m) ∧
    (∀ m : ChannelVisibility,
      underscoreCount (ChannelVisibility.name m) ≤ 1 →
      (website_input_to_enum ChannelVisibility.name ChannelVisibility.members
        "ChannelVisibility"
        (enum_to_website_output ChannelVisibility.name m) true).1 = some m) := by
  refine ⟨?_, ?_, ?_, ?_⟩ <;> intro m h <;> cases m <;> rfl

/-- Witness for C2 at `Subject.MATHS_A`. -/
theorem enum_roundtrip_of_at_most_one_underscore_witness :
    underscoreCount (Subject.name Subject.MATHS_A) ≤ 1 ∧
    (website_input_to_enum Subject.name Subject.members "Subject"
      (enum_to_website_output Subject.name Subject.MATHS_A) true).1 =
      some Subject.MATHS_A :=
  ⟨by decide,
   enum_roundtrip_of_at_most_one_underscore.2.1 Subject.MATHS_A (by decide)⟩

/-- C3: `base64_to_ascii(ascii_to_base64(p)) == p` for every byte sequence
of an encodable password (every byte below 256, as `str.encode()`
guarantees): the pair is an exact, reversible encode/decode round trip. -/
theorem password_encode_decode_roundtrip (p : List Nat)
    (h : ∀ x ∈ p, x < 256) :
    base64_to_ascii (ascii_to_base64 p) = p :=
  b64decode_b64encode p h

/-- Witness for C3 at the bytes of `"pass1"`. -/
theorem password_encode_decode_roundtrip_witness :
    (∀ x ∈ [112, 97, 115, 115, 49], x < 256) ∧
    base64_to_ascii (ascii_to_base64 [112, 97, 115, 115, 49]) =
      [112, 97, 115, 115, 49] :=
  ⟨by decide,
   password_encode_decode_roundtrip [112, 97, 115, 115, 49] (by decide)⟩

/-- C4: on every member of the four declared enum classes,
`enum_to_website_output` computes exactly the spec's algorithm — lowercase
the symbolic name, replace only the first underscore with a space, then
title-case each word — and in particular maps `Subject.MATHS_A` to
`"Maths A"` and `Grade.YEAR_12` to `"Year 12"`. -/
theorem enum_to_website_output_correct :
    (∀ m : ResourceDifficulty,
      enum_to_website_output ResourceDifficulty.name m =
        specLabel (ResourceDifficulty.name m)) ∧
    (∀ m : Subject,
      enum_to_website_output Subject.name m = specLabel (Subject.name m)) ∧
    (∀ m : Grade,
      enum_to_website_output Grade.name m = specLabel (Grade.name m)) ∧
    (∀ m : ChannelVisibility,
      enum_to_website_output ChannelVisibility.name m =
        specLabel (ChannelVisibility.name m)) ∧
    enum_to_website_output Subject.name Subject.MATHS_A = "Maths A" ∧
    enum_to_website_output Grade.name Grade.YEAR_12 = "Year 12" := by
  refine ⟨?_, ?_, ?_, ?_, by decide, by decide⟩ <;> intro m <;> cases m <;> rfl

/-- C5: `website_input_to_enum` uppercases the input, replaces only the
first space with an underscore, looks the result up among the member names,
and returns the member on success: whenever `m` is the unique member of the
enum class whose name equals the transformed input, the call returns `m`. -/
theorem website_input_to_enum_finds_member {E : Type} (nm : E → String)
    (members : List E) (cls s : String) (verbose : Bool) (m : E)
    (hmem : m ∈ members)
    (hname : nm m = pyReplaceFirst ' ' '_' (pyUpper s))
    (huniq : ∀ a ∈ members, nm a = pyReplaceFirst ' ' '_' (pyUpper s) → a = m) :
    (website_input_to_enum nm members cls s verbose).1 = some m := by
  have hfind :
      members.find? (fun a => nm a == pyReplaceFirst ' ' '_' (pyUpper s)) =
        some m := by
    apply find_unique _ _ _ hmem
    · simp [hname]
    · intro a ha hpa
      exact huniq a ha (by simpa using hpa)
  simp only [website_input_to_enum]
  rw [hfind]

/-- Witness for C5:
`website_input_to_enum("Fully Private", ChannelVisibility)` returns
`ChannelVisibility.FULLY_PRIVATE`. -/
theorem website_input_to_enum_finds_member_witness :
    (website_input_to_enum ChannelVisibility.name ChannelVisibility.members
      "ChannelVisibility" "Fully Private" true).1 =
      some ChannelVisibility.FULLY_PRIVATE :=
  website_input_to_enum_finds_member ChannelVisibility.name
    ChannelVisibility.members "ChannelVisibility" "Fully Private" true
    ChannelVisibility.FULLY_PRIVATE (by decide) (by decide) (by decide)

/-- C6: when the transformed input matches no member name,
`website_input_to_enum` returns the not-found signal `None` (with the
diagnostic line) instead of letting the `KeyError` propagate — the model is
a total function whose only failure outcome is this value. -/
theorem website_input_to_enum_not_found {E : Type} (nm : E → String)
    (members : List E) (cls s : String) (verbose : Bool)
    (h : ∀ a ∈ members, nm a ≠ pyReplaceFirst ' ' '_' (pyUpper s)) :
    website_input_to_enum nm members cls s verbose =
      (none, ["value " ++ s ++ " not found in enum class " ++ cls]) := by
  have hfind :
      members.find? (fun a => nm a == pyReplaceFirst ' ' '_' (pyUpper s)) =
        none := by
    rw [List.find?_eq_none]
    intro a ha
    simpa using h a ha
  simp only [website_input_to_enum]
  rw [hfind]

/-- Witness for C6: `website_input_to_enum("Nonexistent Value", Subject)`
returns the not-found signal. -/
theorem website_input_to_enum_not_found_witness :
    website_input_to_enum Subject.name Subject.members "Subject"
      "Nonexistent Value" true =
      (none, ["value Nonexistent Value not found in enum class Subject"]) :=
  website_input_to_enum_not_found Subject.name Subject.members "Subject"
    "Nonexistent Value" true (by decide)

/-- C7: each composite-primary-key table admits at most one row per key
tuple: an insert whose key tuple equals that of a row already present is
rejected (the insert yields `none` and the table is left as it was, so the
first row remains the only one with that key). -/
theorem composite_key_insert_unique :
    (∀ (t : List UserTeachingAreasRow) (r₁ r₂ : UserTeachingAreasRow),
      r₁ ∈ t → r₂.key = r₁.key →
      insertUnique UserTeachingAreasRow.key t r₂ = none) ∧
    (∀ (t : List ResourceViewRow) (r₁ r₂ : ResourceViewRow),
      r₁ ∈ t → r₂.key = r₁.key →
      insertUnique ResourceViewRow.key t r₂ = none) ∧
    (∀ (t : List ResourceVoteInfoRow) (r₁ r₂ : ResourceVoteInfoRow),
      r₁ ∈ t → r₂.key = r₁.key →
      insertUnique ResourceVoteInfoRow.key t r₂ = none) ∧
    (∀ (t : List ResourceCreaterRow) (r₁ r₂ : ResourceCreaterRow),
      r₁ ∈ t → r₂.key = r₁.key →
      insertUnique ResourceCreaterRow.key t r₂ = none) ∧
    (∀ (t : List ResourceCommentReplyRow) (r₁ r₂ : ResourceCommentReplyRow),
      r₁ ∈ t → r₂.key = r₁.key →
      insertUnique ResourceCommentReplyRow.key t r₂ = none) ∧
    (∀ (t : List PrivateResourcePersonnelRow)
        (r₁ r₂ : PrivateResourcePersonnelRow),
      r₁ ∈ t → r₂.key = r₁.key →
      insertUnique PrivateResourcePersonnelRow.key t r₂ = none) ∧
    (∀ (t : List ResourceTagRecordRow) (r₁ r₂ : ResourceTagRecordRow),
      r₁ ∈ t → r₂.key = r₁.key →
      insertUnique ResourceTagRecordRow.key t r₂ = none) ∧
    (∀ (t : List ChannelPersonnelRow) (r₁ r₂ : ChannelPersonnelRow),
      r₁ ∈ t → r₂.key = r₁.key →
      insertUnique ChannelPersonnelRow.key t r₂ = none) ∧
    (∀ (t : List ChannelTagRecordRow) (r₁ r₂ : ChannelTagRecordRow),
      r₁ ∈ t → r₂.key = r₁.key →
      insertUnique ChannelTagRecordRow.key t r₂ = none) ∧
    (∀ (t : List ChannelPostVoteInfoRow) (r₁ r₂ : ChannelPostVoteInfoRow),
      r₁ ∈ t → r₂.key = r₁.key →
      insertUnique ChannelPostVoteInfoRow.key t r₂ = none) ∧
    (∀ (t : List PostCommentVoteInfoRow) (r₁ r₂ : PostCommentVoteInfoRow),
      r₁ ∈ t → r₂.key = r₁.key →
      insertUnique PostCommentVoteInfoRow.key t r₂ = none) := by
  refine ⟨?_, ?_, ?_, ?_, ?_, ?_, ?_, ?_, ?_, ?_, ?_⟩ <;>
    exact fun t r₁ r₂ h₁ h₂ => insertUnique_mem_rejects _ t r₁ r₂ h₁ h₂

/-- Witness for C7: the first `ResourceVoteInfo` insert on an empty table
succeeds; a second insert with the identical `(uid, rid)` pair is
rejected. -/
theorem composite_key_insert_unique_witness :
    insertUnique ResourceVoteInfoRow.key ([] : List ResourceVoteInfoRow)
      ⟨1, 2, true⟩ = some [⟨1, 2, true⟩] ∧
    insertUnique ResourceVoteInfoRow.key [⟨1, 2, true⟩] ⟨1, 2, false⟩ =
      none :=
  ⟨by decide,
   composite_key_insert_unique.2.2.1 [⟨1, 2, true⟩] ⟨1, 2, true⟩
     ⟨1, 2, false⟩ (by decide) (by decide)⟩

/-- C8: for each of the seven tables with a `created_at` column, the column
default is the single `datetime.datetime.now(...)` value computed at
class-definition (module-load) time, so a row inserted without an explicit
`created_at` gets that frozen value regardless of — and, whenever the clock
has moved on, different from — its own insertion time. -/
theorem created_at_default_frozen :
    (∀ (lt t₁ t₂ uid : Nat) (un pw em : String),
      (mkUserRowDefault lt t₁ uid un pw em).created_at = moduleLoadNow lt ∧
      (mkUserRowDefault lt t₁ uid un pw em).created_at =
        (mkUserRowDefault lt t₂ uid un pw em).created_at ∧
      (t₁ ≠ lt → (mkUserRowDefault lt t₁ uid un pw em).created_at ≠ t₁)) ∧
    (∀ (lt t₁ t₂ rid : Nat) (ti li : String) (d : ResourceDifficulty)
        (su : Subject) (g : Grade),
      (mkResourceRowDefault lt t₁ rid ti li d su g).created_at =
        moduleLoadNow lt ∧
      (mkResourceRowDefault lt t₁ rid ti li d su g).created_at =
        (mkResourceRowDefault lt t₂ rid ti li d su g).created_at ∧
      (t₁ ≠ lt →
        (mkResourceRowDefault lt t₁ rid ti li d su g).created_at ≠ t₁)) ∧
    (∀ lt t₁ t₂ rid uid : Nat,
      (mkResourceViewRowDefault lt t₁ rid uid).created_at =
        moduleLoadNow lt ∧
      (mkResourceViewRowDefault lt t₁ rid uid).created_at =
        (mkResourceViewRowDefault lt t₂ rid uid).created_at ∧
      (t₁ ≠ lt →
        (mkResourceViewRowDefault lt t₁ rid uid).created_at ≠ t₁)) ∧
    (∀ (lt t₁ t₂ rcid : Nat) (uid rid : Option Nat) (co : String),
      (mkResourceCommentRowDefault lt t₁ rcid uid rid co).created_at =
        moduleLoadNow lt ∧
      (mkResourceCommentRowDefault lt t₁ rcid uid rid co).created_at =
        (mkResourceCommentRowDefault lt t₂ rcid uid rid co).created_at ∧
      (t₁ ≠ lt →
        (mkResourceCommentRowDefault lt t₁ rcid uid rid co).created_at ≠ t₁)) ∧
    (∀ (lt t₁ t₂ rcid uid : Nat) (re : String),
      (mkResourceCommentReplyRowDefault lt t₁ rcid uid re).created_at =
        moduleLoadNow lt ∧
      (mkResourceCommentReplyRowDefault lt t₁ rcid uid re).created_at =
        (mkResourceCommentReplyRowDefault lt t₂ rcid uid re).created_at ∧
      (t₁ ≠ lt →
        (mkResourceCommentReplyRowDefault lt t₁ rcid uid re).created_at ≠ t₁)) ∧
    (∀ (lt t₁ t₂ pid : Nat) (uid cid : Option Nat) (ti ix : String),
      (mkChannelPostRowDefault lt t₁ pid uid cid ti ix).created_at =
        moduleLoadNow lt ∧
      (mkChannelPostRowDefault lt t₁ pid uid cid ti ix).created_at =
        (mkChannelPostRowDefault lt t₂ pid uid cid ti ix).created_at ∧
      (t₁ ≠ lt →
        (mkChannelPostRowDefault lt t₁ pid uid cid ti ix).created_at ≠ t₁)) ∧
    (∀ (lt t₁ t₂ pcid : Nat) (pid uid : Option Nat) (tx : String),
      (mkPostCommentRowDefault lt t₁ pcid pid uid tx).created_at =
        moduleLoadNow lt ∧
      (mkPostCommentRowDefault lt t₁ pcid pid uid tx).created_at =
        (mkPostCommentRowDefault lt t₂ pcid pid uid tx).created_at ∧
      (t₁ ≠ lt →
        (mkPostCommentRowDefault lt t₁ pcid pid uid tx).created_at ≠ t₁)) := by
  refine ⟨?_, ?_, ?_, ?_, ?_, ?_, ?_⟩ <;> intro lt t₁ t₂ <;> intros <;>
    exact ⟨rfl, rfl, fun hne => frozen_ne_insert_time hne⟩

/-- Witness for C8: with module load at clock 0, `user` rows inserted at
clocks 5 and 9 both carry the frozen timestamp 0, not their own insertion
times. -/
theorem created_at_default_frozen_witness :
    (mkUserRowDefault 0 5 1 "alice" "pw" "alice@ex.com").created_at =
      moduleLoadNow 0 ∧
    (mkUserRowDefault 0 5 1 "alice" "pw" "alice@ex.com").created_at =
      (mkUserRowDefault 0 9 1 "alice" "pw" "alice@ex.com").created_at ∧
    (mkUserRowDefault 0 5 1 "alice" "pw" "alice@ex.com").created_at ≠ 5 :=
  ⟨(created_at_default_frozen.1 0 5 9 1 "alice" "pw" "alice@ex.com").1,
   (created_at_default_frozen.1 0 5 9 1 "alice" "pw" "alice@ex.com").2.1,
   (created_at_default_frozen.1 0 5 9 1 "alice" "pw" "alice@ex.com").2.2
     (by decide)⟩

/-- C9: every member of all four declared enum classes has at most one
underscore in its symbolic name, and consequently the
`website_input_to_enum` / `enum_to_website_output` round trip holds for
every member with no exclusions. -/
theorem enum_roundtrip_all_members :
    (∀ m : ResourceDifficulty,
      underscoreCount (ResourceDifficulty.name m) ≤ 1 ∧
      (website_input_to_enum ResourceDifficulty.name
        ResourceDifficulty.members "ResourceDifficulty"
        (enum_to_website_output ResourceDifficulty.name m) true).1 = some m) ∧
    (∀ m : Subject,
      underscoreCount (Subject.name m) ≤ 1 ∧
      (website_input_to_enum Subject.name Subject.members "Subject"
        (enum_to_website_output Subject.name m) true).1 = some m) ∧
    (∀ m : Grade,
      underscoreCount (Grade.name m) ≤ 1 ∧
      (website_input_to_enum Grade.name Grade.members "Grade"
        (enum_to_website_output Grade.name m) true).1 = some m) ∧
    (∀ m : ChannelVisibility,
      underscoreCount (ChannelVisibility.name m) ≤ 1 ∧
      (website_input_to_enum ChannelVisibility.name ChannelVisibility.members
        "ChannelVisibility"
        (enum_to_website_output ChannelVisibility.name m) true).1 = some m) := by
  refine ⟨?_, ?_, ?_, ?_⟩ <;> intro m <;> cases m <;> exact ⟨by decide, rfl⟩

/-- C10: the returned value of `website_input_to_enum` is identical for
`verbose=True` and `verbose=False`, and the diagnostic line is emitted
unconditionally on lookup failure: the `verbose` parameter is accepted but
never consulted. -/
theorem website_input_to_enum_ignores_verbose {E : Type} (nm : E → String)
    (members : List E) (cls s : String) :
    website_input_to_enum nm members cls s true =
      website_input_to_enum nm members cls s false ∧
    ((website_input_to_enum nm members cls s true).1 = none →
      (website_input_to_enum nm members cls s true).2 =
        ["value " ++ s ++ " not found in enum class " ++ cls]) := by
  constructor
  · rfl
  · simp only [website_input_to_enum]
    cases hfind :
        members.find? (fun a => nm a == pyReplaceFirst ' ' '_' (pyUpper s)) with
    | none => intro _; rfl
    | some m => intro hnone; simp at hnone

/-- Witness for C10 at `Subject` and the input `"Nonexistent Value"`. -/
theorem website_input_to_enum_ignores_verbose_witness :
    website_input_to_enum Subject.name Subject.members "Subject"
      "Nonexistent Value" true =
      website_input_to_enum Subject.name Subject.members "Subject"
        "Nonexistent Value" false ∧
    (website_input_to_enum Subject.name Subject.members "Subject"
      "Nonexistent Value" true).2 =
      ["value Nonexistent Value not found in enum class Subject"] :=
  ⟨(website_input_to_enum_ignores_verbose Subject.name Subject.members
      "Subject" "Nonexistent Value").1,
   (website_input_to_enum_ignores_verbose Subject.name Subject.members
      "Subject" "Nonexistent Value").2 (by decide)⟩

end DBStructure
